import Mathlib

/-!
A verification development for the live-transcript-service backend.

The pipeline under study: a registry monitor (`BotPoolMonitor`) polls an
external bot pool; an acquisition layer (`AudioFetchService`) fetches and
fingerprints per-bot audio; a transcription layer
(`GeminiTranscriptionService`) windows long audio, calls the external
provider per window, parses/normalizes the responses and merges them; a
session layer (`TranscriptStreamService`) owns per-bot transcript sessions.

The JavaScript source is embedded shallowly: stateful services become
explicit state-passing functions, JS `Map`s become association lists,
promises/network calls become function parameters or outcome parameters,
and JS number arithmetic on durations becomes exact `Rat` arithmetic.
-/

/-- Bytes of an audio buffer (a Node.js `Buffer` modeled as a list of byte values). -/
abbrev Buffer := List Nat

/-- Content fingerprint.  The source computes a SHA-256 hex digest of the raw bytes;
the model keeps the whole byte content as the fingerprint, i.e. SHA-256 is modeled
as a collision-free content hash, which is exactly the property the dedup logic
relies on.  Equality of fingerprints in the model coincides with byte equality. -/
abbrev Fingerprint := List Nat

/-- Model of `AudioProcessor.calculateAudioFingerprint` (SHA-256 as an injective
content hash, see `Fingerprint`). -/
def calculateAudioFingerprint (audioBuffer : Buffer) : Fingerprint := audioBuffer

/-- JavaScript `a || b` where `a` is a possibly-absent string: the empty string is falsy. -/
def jsOrStr (a : Option String) (b : String) : String :=
  match a with
  | some s => if s = "" then b else s
  | none => b

/-- JavaScript `a || b` where `a` is a possibly-absent number: `0` is falsy. -/
def jsOrNat (a : Option Nat) (b : Nat) : Nat :=
  match a with
  | some n => if n = 0 then b else n
  | none => b

/-- JavaScript `a || b` for a possibly-absent numeric value, over `Rat`. -/
def jsOrRat (a : Option Rat) (b : Rat) : Rat :=
  match a with
  | some q => if q = 0 then b else q
  | none => b

/-- Helper for `countWords`: count maximal runs of non-whitespace characters.
The boolean records whether the previous character was inside a word. -/
def countWordsAux : List Char → Bool → Nat
  | [], _ => 0
  | c :: cs, inWord =>
    if c.isWhitespace then countWordsAux cs false
    else if inWord then countWordsAux cs true
    else countWordsAux cs true + 1

/-- Model of the source idiom `text.split(/\s+/).filter(w => w.length > 0).length`:
the number of whitespace-separated words of a string. -/
def countWords (text : String) : Nat := countWordsAux text.data false

/-- One attributed utterance as produced by `parseTranscriptionResponse`
(all defaults already filled in). -/
structure Segment where
  speaker : String
  text : String
  startTime : Rat
  endTime : Rat
  confidence : Rat
deriving DecidableEq, Repr

/-- A transcription result object, as returned by `parseTranscriptionResponse`
and `combineTranscriptions`. -/
structure Transcription where
  detectedLanguage : String
  languageConfidence : Rat
  alternativeLanguages : List (String × Rat)
  segments : List Segment
  fullText : String
  wordCount : Nat
deriving DecidableEq, Repr

/-- Truthiness of `text && text.trim()`: the text contains a non-whitespace character. -/
def hasVisibleChar (t : String) : Bool := t.data.any (fun c => !c.isWhitespace)

/-- Model of `combineSegmentsToText`: join the non-blank segment texts with spaces. -/
def combineSegmentsToText (segments : List Segment) : String :=
  String.intercalate " " ((segments.map Segment.text).filter hasVisibleChar)

/-! ### AudioFetchService -/

/-- The per-bot entry of `AudioFetchService.audioBuffers`.  `duration` and `size`
are the `metadata` fields computed in `_performAudioFetch` (the source estimates
duration as `length / (16000 * 2)`).  The wall-clock `lastFetchTime`, `botId` and
`meetingUrl` bookkeeping fields are not modeled. -/
structure StoredBuffer where
  buffer : Buffer
  incrementalBuffer : Buffer
  fingerprint : Fingerprint
  duration : Rat
  size : Nat
deriving DecidableEq, Repr

/-- The value resolved by `_performAudioFetch` when it reports new content. -/
structure AcquisitionResult where
  audioBuffer : Buffer
  fullBuffer : Buffer
  isIncremental : Bool
deriving DecidableEq, Repr

/-- The stored entry built by `_performAudioFetch` when promoting a buffer. -/
def storedEntryFor (audioBuffer : Buffer) : StoredBuffer :=
  { buffer := audioBuffer
    incrementalBuffer := audioBuffer
    fingerprint := calculateAudioFingerprint audioBuffer
    duration := (audioBuffer.length : Rat) / 32000
    size := audioBuffer.length }

/-- Model of the success path of `AudioFetchService._performAudioFetch` for one
entity: given the currently stored entry for the bot and the bytes returned by the
audio endpoint, produce the new stored entry and the result resolved to the caller
(`none` models returning `null`).  Mirrors, in order: the `hasContent` check
(`audioBuffer.length > 1000`), the fingerprint comparison against the stored
entry, the `isIncremental` length comparison, and the store-and-return step.
The source keeps the whole buffer as the incremental slice (ffmpeg extraction is
skipped), which the model reproduces. -/
def performAudioFetch (stored : Option StoredBuffer) (audioBuffer : Buffer) :
    Option StoredBuffer × Option AcquisitionResult :=
  if audioBuffer.length ≤ 1000 then (stored, none)
  else
    let fingerprint := calculateAudioFingerprint audioBuffer
    match stored with
    | some existingBuffer =>
      if existingBuffer.fingerprint = fingerprint then (stored, none)
      else
        (some (storedEntryFor audioBuffer),
         some { audioBuffer := audioBuffer
                fullBuffer := audioBuffer
                isIncremental := decide (existingBuffer.buffer.length < audioBuffer.length) })
    | none =>
      (some (storedEntryFor audioBuffer),
       some { audioBuffer := audioBuffer, fullBuffer := audioBuffer, isIncremental := false })

/-- Number of transcription-provider invocations an acquisition outcome can cause
downstream: a `null` fetch result is never transcribed, a non-null result is
processed (at most once) by `processAudioBuffer`. -/
def acquisitionCount (r : Option AcquisitionResult) : Nat :=
  if r.isSome then 1 else 0

/-- Two consecutive fetches of byte-identical audio for one entity, counting the
non-null results (each of which can cause at most one provider invocation). -/
def fetchTwiceInvocations (stored : Option StoredBuffer) (audioBuffer : Buffer) : Nat :=
  let first := performAudioFetch stored audioBuffer
  let second := performAudioFetch first.1 audioBuffer
  acquisitionCount first.2 + acquisitionCount second.2

/-- State of the single-flight gate of `AudioFetchService.fetchAudioForBot`:
`fetchPromises` maps a legacy bot id to the identity of its pending fetch promise
(promises are modeled by numeric identities), `requestsIssued` counts how many
times `_performAudioFetch` was started. -/
structure FetchState where
  fetchPromises : List (String × Nat)
  nextPromiseId : Nat
  requestsIssued : Nat
deriving DecidableEq, Repr

/-- Model of the single-flight gate in `fetchAudioForBot`: if a fetch promise for
the legacy bot id is already registered, the caller receives that same pending
promise and no new fetch is started; otherwise a new promise is registered and a
new `_performAudioFetch` is issued.  (The check-then-set runs synchronously on
the JS event loop, so the map transition is atomic.)  Returns the new state and
the promise identity handed to the caller. -/
def fetchAudioForBot (s : FetchState) (legacyBotId : String) : FetchState × Nat :=
  match s.fetchPromises.lookup legacyBotId with
  | some p => (s, p)
  | none =>
    ({ fetchPromises := (legacyBotId, s.nextPromiseId) :: s.fetchPromises
       nextPromiseId := s.nextPromiseId + 1
       requestsIssued := s.requestsIssued + 1 },
     s.nextPromiseId)

/-! ### GeminiTranscriptionService: response parsing -/

/-- Field-level model of one element of the `segments` array of the JSON value
produced by `JSON.parse` on the provider response.  `none` models a missing
property. -/
structure RawSegment where
  speaker : Option String
  text : Option String
  startTime : Option Rat
  endTime : Option Rat
  confidence : Option Rat
deriving DecidableEq, Repr

/-- Field-level model of the JSON object produced by `JSON.parse` on the provider
response (after markdown-fence stripping).  For `segments`, `none` models a
missing or non-array property — exactly the case the source's shape validation
(`!parsed.segments || !Array.isArray(parsed.segments)`) rejects. -/
structure ParsedJson where
  detectedLanguage : Option String
  languageConfidence : Option Rat
  alternativeLanguages : Option (List (String × Rat))
  segments : Option (List RawSegment)
  fullText : Option String
  wordCount : Option Nat
deriving DecidableEq, Repr

/-- `combineSegmentsToText` applied to the raw parsed segments (used for the
`fullText` default): a segment without a `text` property is filtered out. -/
def combineRawSegmentsToText (segments : List RawSegment) : String :=
  String.intercalate " "
    ((segments.map (fun s => s.text.getD "")).filter hasVisibleChar)

/-- Fallback transcription built in the `catch` branch of
`parseTranscriptionResponse`.  `fallbackText` stands for
`extractFallbackText(responseText)`, the text scraped out of the unusable
response. -/
def fallbackTranscription (fallbackText : String) : Transcription :=
  { detectedLanguage := "unknown"
    languageConfidence := 0
    alternativeLanguages := []
    segments := [{ speaker := "Unknown", text := fallbackText,
                   startTime := 0, endTime := 0, confidence := 0 }]
    fullText := fallbackText
    wordCount := countWords fallbackText }

/-- Model of `parseTranscriptionResponse`.  `resp = none` models a response text
on which `JSON.parse` throws; a parsed object whose `segments` is missing or not
an array throws inside the `try` and lands in the same `catch`.  Both cases
produce `fallbackTranscription`.  Otherwise the parsed object is trusted as-is
with per-field defaults (`|| 'Unknown'`, `|| 0`, ...); note the `!parsed.wordCount`
recomputation treats `0` as absent, and `parsed.fullText ? ... : 0` treats the
empty string as absent. -/
def parseTranscriptionResponse (resp : Option ParsedJson) (fallbackText : String) :
    Transcription :=
  match resp with
  | none => fallbackTranscription fallbackText
  | some parsed =>
    match parsed.segments with
    | none => fallbackTranscription fallbackText
    | some segs =>
      let computedWordCount : Nat :=
        match parsed.fullText with
        | some t => if t = "" then 0 else countWords t
        | none => 0
      { detectedLanguage := jsOrStr parsed.detectedLanguage "unknown"
        languageConfidence := jsOrRat parsed.languageConfidence 0
        alternativeLanguages := parsed.alternativeLanguages.getD []
        segments := segs.map (fun s =>
          { speaker := jsOrStr s.speaker "Unknown"
            text := jsOrStr s.text ""
            startTime := jsOrRat s.startTime 0
            endTime := jsOrRat s.endTime 0
            confidence := jsOrRat s.confidence 0 })
        fullText := jsOrStr parsed.fullText (combineRawSegmentsToText segs)
        wordCount := jsOrNat parsed.wordCount computedWordCount }

/-! ### GeminiTranscriptionService: speaker normalization -/

/-- Model of the roster entries handed to `normalizeSpeakerNames`. -/
structure Participant where
  name : Option String
  email : Option String
deriving DecidableEq, Repr

/-- Model of `p.name || p.email || 'Unknown'`. -/
def participantDisplayName (p : Participant) : String :=
  jsOrStr p.name (jsOrStr p.email "Unknown")

/-- Lower-cased character list of a string (for the case-insensitive matching). -/
def lowerChars (s : String) : List Char := s.data.map Char.toLower

/-- Substring occurrence test on character lists. -/
def listContainsSub (hay needle : List Char) : Bool :=
  (List.range (hay.length + 1)).any (fun i => needle.isPrefixOf (hay.drop i))

/-- Model of `hay.toLowerCase().includes(needle.toLowerCase())`. -/
def containsCI (hay needle : String) : Bool :=
  listContainsSub (lowerChars hay) (lowerChars needle)

/-- The eight characters the generic speaker labels start with. -/
def speakerLabelChars : List Char := ['S', 'p', 'e', 'a', 'k', 'e', 'r', ' ']

/-- Model of `speaker.startsWith('Speaker ')`. -/
def startsWithSpeakerSpace (s : String) : Bool :=
  speakerLabelChars.isPrefixOf s.data

/-- Model of the regex test `/^Speaker \d+$/`. -/
def isSpeakerNumberLabel (s : String) : Bool :=
  startsWithSpeakerSpace s
    && !(s.data.drop 8).isEmpty
    && (s.data.drop 8).all Char.isDigit

/-- A label the source treats as generic in `normalizeSpeakerNames`:
`'Unknown'`, `'Speaker'`, or `Speaker N`. -/
def isGenericLabel (speaker : String) : Bool :=
  speaker == "Unknown" || speaker == "Speaker" || isSpeakerNumberLabel speaker

/-- Occurrences of `name` among the segment speaker labels (`speakerCounts` in
the source — rebuilt from the *original* segment list on every call). -/
def speakerCount (segments : List Segment) (name : String) : Nat :=
  (segments.filter (fun s => s.speaker == name)).length

/-- One step of the source loop `participantNames.forEach(...)` that starts from
`minCount = Infinity` (modeled by `none`) and keeps the first name with a
strictly smaller count. -/
def leastUsedStep (segments : List Segment) (acc : String × Option Nat) (name : String) :
    String × Option Nat :=
  let c := speakerCount segments name
  match acc.2 with
  | none => (name, some c)
  | some m => if c < m then (name, some c) else acc

/-- The "least used participant name" heuristic of `normalizeSpeakerNames`:
the first roster name attaining the minimal count among the original segment
labels. -/
def leastUsedName (participantNames : List String) (segments : List Segment) : String :=
  (participantNames.foldl (leastUsedStep segments) (participantNames.headD "Unknown", none)).1

/-- The body of the `segments.map` of `normalizeSpeakerNames` in the
multi-participant branch, closing over the participant names and the original
segment list. -/
def normalizeSegment (participantNames : List String) (segments : List Segment)
    (segment : Segment) : Segment :=
  let speaker := if segment.speaker = "" then "Unknown" else segment.speaker
  if isGenericLabel speaker then
    { segment with speaker := leastUsedName participantNames segments }
  else if participantNames.contains speaker then segment
  else
    match participantNames.find? (fun name => containsCI name speaker || containsCI speaker name) with
    | some matchedName => { segment with speaker := matchedName }
    | none => { segment with speaker := participantNames.headD "Unknown" }

/-- Model of `GeminiTranscriptionService.normalizeSpeakerNames`. -/
def normalizeSpeakerNames (segments : List Segment) (participants : List Participant) :
    List Segment :=
  if segments.isEmpty then segments
  else if participants.isEmpty then segments
  else
    let participantNames := participants.map participantDisplayName
    if participants.length = 1 then
      segments.map (fun segment => { segment with speaker := participantNames.headD "Unknown" })
    else
      segments.map (normalizeSegment participantNames segments)

/-! ### AudioProcessor: windowing, and GeminiTranscriptionService: long audio -/

/-- One window produced by `AudioProcessor.splitAudioIntoChunks`: its start/end
offsets in seconds and its index. -/
structure ChunkSpec where
  startTime : Rat
  endTime : Rat
  index : Nat
deriving DecidableEq, Repr

/-- Model of `AudioProcessor.splitAudioIntoChunks` at the time-domain level: the
byte buffer and the per-window ffmpeg extraction are abstracted away and only
the `(startTime, endTime, index)` window boundaries are kept.  `totalDuration`
is the probed duration of the audio, `chunkDuration` the window size.  Mirrors
the short-circuit for audio not exceeding one window, `Math.ceil` for the window
count, and `Math.min` truncation of the last window. -/
def splitAudioIntoChunks (totalDuration chunkDuration : Rat) : List ChunkSpec :=
  if totalDuration ≤ chunkDuration then
    [{ startTime := 0, endTime := totalDuration, index := 0 }]
  else
    (List.range (Int.toNat ⌈totalDuration / chunkDuration⌉)).map (fun (i : Nat) =>
      { startTime := (i : Rat) * chunkDuration
        endTime := min (((i : Rat) + 1) * chunkDuration) totalDuration
        index := i })

/-- Timestamp shift applied to each segment of a window's result
(`segment.startTime += chunk.startTime` and likewise for `endTime`). -/
def shiftSegment (offset : Rat) (segment : Segment) : Segment :=
  { segment with startTime := segment.startTime + offset, endTime := segment.endTime + offset }

/-- A window's transcription with all its segment timestamps shifted by the
window's start offset. -/
def shiftTranscription (offset : Rat) (t : Transcription) : Transcription :=
  { t with segments := t.segments.map (shiftSegment offset) }

/-- The rolling context threaded through consecutive transcription calls
(`previousContext` in the source; the session layer stores the same shape). -/
structure PreviousContext where
  lastSpeaker : Option String
  totalDuration : Rat
  speakers : List String
deriving DecidableEq, Repr

/-- Context update performed after a successful window in `transcribeLongAudio`
(computed from the already-shifted segments, as in the source where the segment
array is mutated in place before the context is rebuilt). -/
def nextContext (chunk : ChunkSpec) (shifted : Transcription) : PreviousContext :=
  { lastSpeaker := (shifted.segments.getLast?).map Segment.speaker
    totalDuration := chunk.endTime
    speakers := (shifted.segments.map Segment.speaker).eraseDups }

/-- Failure of one window's `transcribeAudio` call after `withRetry` is
exhausted: either the provider signalled a rate limit (which
`transcribeLongAudio` rethrows) or any other error (which it catches and skips). -/
inductive ChunkError
  | rateLimit
  | failed
deriving DecidableEq, Repr

/-- Errors `transcribeLongAudio` itself can surface: a rethrown rate limit, or
the `'No transcriptions to combine'` error when every window failed. -/
inductive LongAudioError
  | rateLimit
  | noTranscriptions
deriving DecidableEq, Repr

/-- Model of the window loop of `transcribeLongAudio`.  `provider` stands for
one `transcribeAudio` call on a window's buffer, given the rolling context
(`none` on the first window).  A successful window's result is shifted by the
window's start offset, appended, and seeds the context for the next window; a
`failed` window is skipped with the context left as last successfully updated;
a `rateLimit` failure aborts the whole loop. -/
def runChunks (provider : ChunkSpec → Option PreviousContext → Except ChunkError Transcription) :
    List ChunkSpec → Option PreviousContext → Except LongAudioError (List Transcription)
  | [], _ => Except.ok []
  | chunk :: rest, previousContext =>
    match provider chunk previousContext with
    | Except.ok t =>
      let shifted := shiftTranscription chunk.startTime t
      match runChunks provider rest (some (nextContext chunk shifted)) with
      | Except.ok ts => Except.ok (shifted :: ts)
      | Except.error e => Except.error e
    | Except.error ChunkError.rateLimit => Except.error LongAudioError.rateLimit
    | Except.error ChunkError.failed => runChunks provider rest previousContext

/-- Occurrences of a language among the per-window detected languages. -/
def langCount (langs : List String) (l : String) : Nat :=
  (langs.filter (fun x => x == l)).length

/-- The primary language computed by `combineTranscriptions`: build
`languageVotes`, sort the entries by count descending (stable, so insertion
order — first appearance — breaks ties) and take the first.  Equivalently: the
first-appearing language with the maximal count. -/
def pickPrimaryLanguage (langs : List String) : String :=
  match langs.eraseDups with
  | [] => "unknown"
  | l0 :: rest =>
    rest.foldl (fun acc l => if langCount langs acc < langCount langs l then l else acc) l0

/-- Model of `combineTranscriptions`.  `none` models the thrown
`'No transcriptions to combine'` error on an empty input list. -/
def combineTranscriptions (transcriptions : List Transcription) : Option Transcription :=
  match transcriptions with
  | [] => none
  | t0 :: _ =>
    let allSegments := (transcriptions.map Transcription.segments).flatten
    some
      { detectedLanguage := pickPrimaryLanguage (transcriptions.map Transcription.detectedLanguage)
        languageConfidence :=
          (transcriptions.map Transcription.languageConfidence).sum / (transcriptions.length : Rat)
        alternativeLanguages := t0.alternativeLanguages
        segments := allSegments
        fullText := combineSegmentsToText allSegments
        wordCount := (allSegments.map (fun s => countWords s.text)).sum }

/-- Model of `transcribeLongAudio`: split the audio (of probed duration
`totalDuration`) into `chunkDuration`-sized windows, run the window loop, and
combine the collected per-window results. -/
def transcribeLongAudio
    (provider : ChunkSpec → Option PreviousContext → Except ChunkError Transcription)
    (totalDuration chunkDuration : Rat) : Except LongAudioError Transcription :=
  match runChunks provider (splitAudioIntoChunks totalDuration chunkDuration) none with
  | Except.error e => Except.error e
  | Except.ok ts =>
    match combineTranscriptions ts with
    | some combined => Except.ok combined
    | none => Except.error LongAudioError.noTranscriptions

/-- Well-formedness of one window's provider output relative to its window:
the utterance start offsets are non-decreasing, and each is between 0 and the
window's length.  (This is what the provider is prompted to return —
"timestamps relative to the audio start" of the slice.) -/
def localOk (chunk : ChunkSpec) (t : Transcription) : Prop :=
  List.Chain' (fun a b => a ≤ b) (t.segments.map Segment.startTime) ∧
  ∀ seg ∈ t.segments, 0 ≤ seg.startTime ∧ seg.startTime ≤ chunk.endTime - chunk.startTime

/-! ### TranscriptStreamService -/

/-- Association-list update with JS `Map.set` semantics: replace in place if the
key is present, append otherwise. -/
def setEntry {α : Type} (m : List (String × α)) (k : String) (v : α) : List (String × α) :=
  if (m.lookup k).isSome then
    m.map (fun p => if p.1 = k then (k, v) else p)
  else m ++ [(k, v)]

/-- Association-list deletion (JS `Map.delete`). -/
def removeEntry {α : Type} (m : List (String × α)) (k : String) : List (String × α) :=
  m.filter (fun p => p.1 != k)

/-- Insertion-ordered set insertion (JS `Set.add`). -/
def addToSet (xs : List String) (x : String) : List String :=
  if xs.contains x then xs else xs ++ [x]

/-- One transcript session (`TranscriptSession` in the source).  Segments are
stored with the sequence number used to build their `..._seg_N` id; the
wall-clock timestamps, SSE client set, metadata and summary fields are not
modeled. -/
structure Session where
  sessionId : String
  botId : String
  legacyBotId : String
  meetingUrl : String
  status : String
  segments : List (Nat × Segment)
  speakers : List String
  detectedLanguage : Option String
  languageConfidence : Rat
  alternativeLanguages : List (String × Rat)
  wordCount : Nat
  duration : Rat
  lastProcessedFingerprint : Option Fingerprint
  context : PreviousContext
deriving DecidableEq, Repr

/-- The two maps owned by `TranscriptStreamService`. -/
structure ServiceState where
  transcriptSessions : List (String × Session)
  botToSessionMap : List (String × String)
deriving DecidableEq, Repr

/-- Model of `createSession`: allocate the fresh `active` session keyed by
`botId + '_transcript'` and register the bot-to-session mapping.  Returns the
new state and the session id. -/
def createSession (state : ServiceState) (botId legacyBotId meetingUrl : String) :
    ServiceState × String :=
  let sessionId := botId ++ "_transcript"
  let session : Session :=
    { sessionId := sessionId
      botId := botId
      legacyBotId := legacyBotId
      meetingUrl := meetingUrl
      status := "active"
      segments := []
      speakers := []
      detectedLanguage := none
      languageConfidence := 0
      alternativeLanguages := []
      wordCount := 0
      duration := 0
      lastProcessedFingerprint := none
      context := { lastSpeaker := none, totalDuration := 0, speakers := [] } }
  ({ transcriptSessions := setEntry state.transcriptSessions sessionId session
     botToSessionMap := setEntry state.botToSessionMap legacyBotId sessionId },
   sessionId)

/-- Append incoming segments numbering each with `existing length + 1`, as the
source's `forEach` does while pushing (`id: ..._seg_${session.segments.length + 1}`). -/
def appendNumbered (existing : List (Nat × Segment)) (incoming : List Segment) :
    List (Nat × Segment) :=
  incoming.foldl (fun acc s => acc ++ [(acc.length + 1, s)]) existing

/-- The `session.speakers.add(segment.speaker)` loop: add each truthy speaker
label to the insertion-ordered speaker set. -/
def sessionSpeakerFold (speakers : List String) (segments : List Segment) : List String :=
  segments.foldl (fun acc s => if s.speaker = "" then acc else addToSet acc s.speaker) speakers

/-- The non-generic speaker names collected into the session context:
`filter(speaker => speaker && !speaker.startsWith('Speaker ') && speaker !== 'Unknown')`. -/
def nonGenericNames (segments : List Segment) : List String :=
  (segments.map Segment.speaker).filter
    (fun sp => sp != "" && !startsWithSpeakerSpace sp && sp != "Unknown")

/-- Model of `updateSession`.  Note the source checks only that the session
exists and that the transcription has segments — it does NOT check
`session.status`.  `transcription.duration` and `transcription.context` are
absent on the transcription objects the service produces (both JS `undefined`,
hence falsy), so `session.duration` is kept and the context is rebuilt from the
old one, as in the source. -/
def updateSession (state : ServiceState) (sessionId : String)
    (transcription : Transcription) : ServiceState :=
  match state.transcriptSessions.lookup sessionId with
  | none => state
  | some session =>
    if transcription.segments.isEmpty then state
    else
      let newContextSpeakers :=
        if nonGenericNames transcription.segments ≠ [] then
          (session.context.speakers ++ nonGenericNames transcription.segments).eraseDups
        else session.context.speakers
      let updated : Session :=
        { session with
          segments := appendNumbered session.segments transcription.segments
          speakers := sessionSpeakerFold session.speakers transcription.segments
          wordCount := if transcription.wordCount = 0 then session.wordCount
                       else transcription.wordCount
          detectedLanguage := if transcription.detectedLanguage ≠ "" then
                                some transcription.detectedLanguage
                              else session.detectedLanguage
          languageConfidence := if transcription.detectedLanguage ≠ "" then
                                  transcription.languageConfidence
                                else session.languageConfidence
          alternativeLanguages := if transcription.detectedLanguage ≠ "" then
                                    transcription.alternativeLanguages
                                  else session.alternativeLanguages
          context :=
            { lastSpeaker := (transcription.segments.getLast?).map Segment.speaker
              totalDuration := session.context.totalDuration
              speakers := newContextSpeakers } }
      { state with transcriptSessions := setEntry state.transcriptSessions sessionId updated }

/-- Model of `stopSession`: flip the status to `stopped` and remove the
bot-to-session mapping (the session object itself stays in
`transcriptSessions`).  SSE teardown is not modeled. -/
def stopSession (state : ServiceState) (sessionId : String) : ServiceState :=
  match state.transcriptSessions.lookup sessionId with
  | none => state
  | some session =>
    { transcriptSessions :=
        setEntry state.transcriptSessions sessionId { session with status := "stopped" }
      botToSessionMap := removeEntry state.botToSessionMap session.legacyBotId }

/-- Model of `getActiveSessions`: the sessions whose status is `active`
(projected to the full session record rather than the summary object). -/
def getActiveSessions (state : ServiceState) : List Session :=
  (state.transcriptSessions.map Prod.snd).filter (fun s => s.status == "active")

/-- The acquisition payload consumed by `processAudioBuffer` (an entry produced
by `AudioFetchService`). -/
structure AudioData where
  botId : String
  legacyBotId : String
  meetingUrl : String
  incrementalBuffer : Option Buffer
  fingerprint : Fingerprint
  meetingDuration : Option Rat
deriving DecidableEq, Repr

/-- Model of `processAudioBuffer`.  `provider` models the
`GeminiTranscriptionService.transcribeAudio` call (`none` = the call threw or
returned nothing usable); `sessionElapsed` models
`(Date.now() - session.startedAt) / 1000`; `startDelay` models
`TRANSCRIPTION_START_DELAY`.  Returns the new state and whether the provider
was invoked.  Mirrors, in order: session lookup/creation, the
no-new-audio guard (`!incrementalBuffer || lastProcessedFingerprint === fingerprint`),
the stabilization-delay guard, the provider call, and the conditional
`updateSession` plus `lastProcessedFingerprint` write. -/
def processAudioBuffer (state : ServiceState) (audioData : AudioData)
    (provider : Buffer → Option Transcription) (sessionElapsed startDelay : Rat) :
    ServiceState × Bool :=
  let step1 : ServiceState × String :=
    match state.botToSessionMap.lookup audioData.legacyBotId with
    | some sid => (state, sid)
    | none => createSession state audioData.botId audioData.legacyBotId audioData.meetingUrl
  let state1 := step1.1
  let sessionId := step1.2
  match state1.transcriptSessions.lookup sessionId with
  | none => (state1, false)
  | some session =>
    match audioData.incrementalBuffer with
    | none => (state1, false)
    | some buf =>
      if session.lastProcessedFingerprint = some audioData.fingerprint then (state1, false)
      else if jsOrRat audioData.meetingDuration sessionElapsed < startDelay then (state1, false)
      else
        match provider buf with
        | none => (state1, true)
        | some transcription =>
          if transcription.segments.isEmpty then (state1, true)
          else
            let state2 := updateSession state1 sessionId transcription
            match state2.transcriptSessions.lookup sessionId with
            | some s2 =>
              ({ state2 with
                 transcriptSessions :=
                   setEntry state2.transcriptSessions sessionId
                     { s2 with lastProcessedFingerprint := some audioData.fingerprint } },
               true)
            | none => (state2, true)

/-! ### BotPoolMonitor -/

/-- One bot listing entry (`BotHandle`); `audioBlobUrl` keeps only the
truthiness of the source field, which is all `processBotUpdates` inspects. -/
structure BotHandle where
  legacyBotId : String
  poolBotId : String
  meetingUrl : String
  audioBlobUrl : Bool
deriving DecidableEq, Repr

/-- The update object passed to `notifyListeners`. -/
structure PoolUpdate where
  newBots : List BotHandle
  removedBots : List String
  activeBots : List BotHandle
  botsWithNewAudio : List BotHandle
deriving DecidableEq, Repr

/-- State of `BotPoolMonitor`: the keyed active-bot map and the configured poll
interval in milliseconds. -/
structure MonitorState where
  activeBots : List (String × BotHandle)
  pollInterval : Nat
deriving DecidableEq, Repr

/-- Model of `processBotUpdates`: diff the listing against the previously
observed bots, replace the active map, and return the listener notification if
anything changed (`none` when no listener is notified).  The `lastSeen`/`isNew`
decorations on stored bots are not modeled. -/
def processBotUpdates (s : MonitorState) (bots : List BotHandle) :
    MonitorState × Option PoolUpdate :=
  let currentIds := bots.map BotHandle.legacyBotId
  let previousIds := s.activeBots.map Prod.fst
  let newBots := bots.filter (fun b => !previousIds.contains b.legacyBotId)
  let removedBotIds := previousIds.filter (fun id => !currentIds.contains id)
  let botsWithNewAudio := bots.filter (fun b =>
    match s.activeBots.lookup b.legacyBotId with
    | some previousBot => !previousBot.audioBlobUrl && b.audioBlobUrl
    | none => false)
  let s2 : MonitorState := { s with activeBots := bots.map (fun b => (b.legacyBotId, b)) }
  if newBots ≠ [] ∨ removedBotIds ≠ [] ∨ botsWithNewAudio ≠ [] then
    (s2, some { newBots := newBots
                removedBots := removedBotIds
                activeBots := bots
                botsWithNewAudio := botsWithNewAudio })
  else (s2, none)

/-- Outcome of one `fetchActiveBots` round trip (after its internal retries):
a listing, or a thrown error. -/
inductive PollOutcome
  | ok (bots : List BotHandle)
  | failure
deriving DecidableEq, Repr

/-- Model of one execution of `poll()`: on success, process the listing and
schedule the next poll after `pollInterval`; on failure, the source clears the
active bots (running `processBotUpdates([])`, which notifies all previous bots
as removed) whenever any are present, and schedules the retry after
`min(pollInterval * 2, 30000)`.  Returns the new state, the scheduled delay in
milliseconds, and the listener notification if any. -/
def pollStep (s : MonitorState) (outcome : PollOutcome) :
    MonitorState × Nat × Option PoolUpdate :=
  match outcome with
  | PollOutcome.ok bots =>
    let r := processBotUpdates s bots
    (r.1, s.pollInterval, r.2)
  | PollOutcome.failure =>
    if 0 < s.activeBots.length then
      let r := processBotUpdates s []
      (r.1, min (s.pollInterval * 2) 30000, r.2)
    else
      (s, min (s.pollInterval * 2) 30000, none)

/-! ### Concrete instances used by counterexamples and witnesses -/

/-- A stored audio entry of 1002 bytes. -/
def storedB8 : StoredBuffer := storedEntryFor (List.replicate 1002 0)

/-- A freshly fetched 1001-byte buffer whose content differs from `storedB8`
and whose byte length is smaller. -/
def shrunkB8 : Buffer := List.replicate 1001 1

/-- A 1001-byte buffer (over the 1000-byte content threshold). -/
def bufC1 : Buffer := List.replicate 1001 3

/-- A transcript session already stopped (as `stopSession` leaves it). -/
def stoppedSession3 : Session :=
  { sessionId := "b1_transcript", botId := "b1", legacyBotId := "leg1", meetingUrl := "u"
    status := "stopped", segments := [], speakers := [], detectedLanguage := none
    languageConfidence := 0, alternativeLanguages := [], wordCount := 0, duration := 0
    lastProcessedFingerprint := none
    context := { lastSpeaker := none, totalDuration := 0, speakers := [] } }

/-- Service state holding only the stopped session (its bot mapping already
removed by `stopSession`). -/
def stoppedState3 : ServiceState :=
  { transcriptSessions := [("b1_transcript", stoppedSession3)], botToSessionMap := [] }

/-- A one-segment transcription result. -/
def oneSegTranscription : Transcription :=
  { detectedLanguage := "en", languageConfidence := 1, alternativeLanguages := []
    segments := [{ speaker := "Ada", text := "hello", startTime := 0, endTime := 1, confidence := 1 }]
    fullText := "hello", wordCount := 1 }

/-- One active bot listing entry. -/
def botC4 : BotHandle :=
  { legacyBotId := "leg1", poolBotId := "b1", meetingUrl := "u", audioBlobUrl := false }

/-- Monitor state observing one active bot, with the default 5000 ms interval. -/
def monitorC4 : MonitorState := { activeBots := [("leg1", botC4)], pollInterval := 5000 }

/-- A two-name roster. -/
def rosterC5 : List Participant :=
  [{ name := some "Ada", email := none }, { name := some "Bob", email := none }]

/-- Provider output where both utterances carry generic labels. -/
def genericSegsC5 : List Segment :=
  [{ speaker := "Speaker 1", text := "a", startTime := 0, endTime := 1, confidence := 1 },
   { speaker := "Speaker 2", text := "b", startTime := 1, endTime := 2, confidence := 1 }]

/-- A parsable provider response whose `segments` array is present but empty
(the JSON text `{"segments": []}` with the braces elided here). -/
def emptySegsResponse : ParsedJson :=
  { detectedLanguage := none, languageConfidence := none, alternativeLanguages := none
    segments := some [], fullText := none, wordCount := none }

/-- A provider response with one fully populated segment. -/
def oneSegResponse : ParsedJson :=
  { detectedLanguage := some "en", languageConfidence := some 1, alternativeLanguages := some []
    segments := some [{ speaker := some "Ada", text := some "hi",
                        startTime := some 2, endTime := some 3, confidence := some 1 }]
    fullText := some "hi", wordCount := some 1 }

/-- A parsable provider response with no `segments` array at all. -/
def noSegsResponse : ParsedJson :=
  { detectedLanguage := some "en", languageConfidence := none, alternativeLanguages := none
    segments := none, fullText := some "hi", wordCount := none }

/-- A provider function that always succeeds with the same one-utterance result
(utterance at local offset 10 s). -/
def providerC2 : ChunkSpec → Option PreviousContext → Except ChunkError Transcription :=
  fun _ _ =>
    Except.ok
      { detectedLanguage := "en", languageConfidence := 1, alternativeLanguages := []
        segments := [{ speaker := "A", text := "hi", startTime := 10, endTime := 11, confidence := 1 }]
        fullText := "hi", wordCount := 1 }

/-- A provider function that fails (non-rate-limit) exactly on window index 0. -/
def providerC7 : ChunkSpec → Option PreviousContext → Except ChunkError Transcription :=
  fun chunk _ =>
    if chunk.index = 0 then Except.error ChunkError.failed
    else
      Except.ok
        { detectedLanguage := "en", languageConfidence := 1, alternativeLanguages := []
          segments := [{ speaker := "A", text := "ok", startTime := 1, endTime := 2, confidence := 1 }]
          fullText := "ok", wordCount := 1 }

/-- A single-flight state with a pending fetch promise (id 7) for bot `leg1`. -/
def fetchStateC9 : FetchState :=
  { fetchPromises := [("leg1", 7)], nextPromiseId := 8, requestsIssued := 1 }

/-! ## Theorems -/

/-- Helper: the three windows produced for 620 s of audio at a 300 s window size. -/
theorem splitChunks620 : splitAudioIntoChunks 620 300 =
    [{ startTime := 0, endTime := 300, index := 0 },
     { startTime := 300, endTime := 600, index := 1 },
     { startTime := 600, endTime := 620, index := 2 }] := by
  have hc : ⌈(620 : Rat) / 300⌉ = 3 := by norm_num [Int.ceil_eq_iff]
  have hr : List.range (Int.toNat 3) = [0, 1, 2] := by rfl
  simp only [splitAudioIntoChunks, hc, hr, List.map_cons, List.map_nil]
  norm_num [ChunkSpec.mk.injEq, min_def]

/-- C1: if the fetched buffer's fingerprint equals the fingerprint stored for the
entity, `_performAudioFetch` returns null with the stored state unchanged; two
consecutive fetches of byte-identical audio yield at most one acquisition result
(hence at most one transcription-provider invocation for that content); and
`processAudioBuffer` does not invoke the provider when the session's last
processed fingerprint already matches the incoming one. -/
theorem fetch_fingerprint_dedup
    (existingBuffer : StoredBuffer) (audioBuffer : Buffer)
    (h : existingBuffer.fingerprint = calculateAudioFingerprint audioBuffer) :
    performAudioFetch (some existingBuffer) audioBuffer = (some existingBuffer, none) ∧
    (∀ stored : Option StoredBuffer, fetchTwiceInvocations stored audioBuffer ≤ 1) ∧
    (∀ (state : ServiceState) (audioData : AudioData)
       (provider : Buffer → Option Transcription) (elapsed delay : Rat)
       (sid : String) (session : Session),
       state.botToSessionMap.lookup audioData.legacyBotId = some sid →
       state.transcriptSessions.lookup sid = some session →
       session.lastProcessedFingerprint = some audioData.fingerprint →
       processAudioBuffer state audioData provider elapsed delay = (state, false)) := by
  refine ⟨?_, ?_, ?_⟩
  · by_cases hl : audioBuffer.length ≤ 1000
    · rw [performAudioFetch, if_pos hl]
    · rw [performAudioFetch, if_neg hl]
      simp [h]
  · intro stored
    by_cases hl : audioBuffer.length ≤ 1000
    · simp [fetchTwiceInvocations, performAudioFetch, hl, acquisitionCount]
    · cases stored with
      | none =>
        simp [fetchTwiceInvocations, performAudioFetch, hl, acquisitionCount, storedEntryFor]
      | some e =>
        by_cases hf : e.fingerprint = calculateAudioFingerprint audioBuffer
        · simp [fetchTwiceInvocations, performAudioFetch, hl, hf, acquisitionCount]
        · simp [fetchTwiceInvocations, performAudioFetch, hl, hf, acquisitionCount, storedEntryFor]
  · intro state audioData provider elapsed delay sid session hmap hsess hfp
    cases hbuf : audioData.incrementalBuffer with
    | none => simp [processAudioBuffer, hmap, hsess, hbuf]
    | some buf => simp [processAudioBuffer, hmap, hsess, hbuf, hfp]

/-- Witness for `fetch_fingerprint_dedup` at a concrete 1001-byte buffer whose
fingerprint is already stored. -/
theorem fetch_fingerprint_dedup_witness :
    (storedEntryFor bufC1).fingerprint = calculateAudioFingerprint bufC1 ∧
    (performAudioFetch (some (storedEntryFor bufC1)) bufC1 = (some (storedEntryFor bufC1), none) ∧
     (∀ stored : Option StoredBuffer, fetchTwiceInvocations stored bufC1 ≤ 1) ∧
     (∀ (state : ServiceState) (audioData : AudioData)
        (provider : Buffer → Option Transcription) (elapsed delay : Rat)
        (sid : String) (session : Session),
        state.botToSessionMap.lookup audioData.legacyBotId = some sid →
        state.transcriptSessions.lookup sid = some session →
        session.lastProcessedFingerprint = some audioData.fingerprint →
        processAudioBuffer state audioData provider elapsed delay = (state, false))) :=
  ⟨rfl, fetch_fingerprint_dedup (storedEntryFor bufC1) bufC1 rfl⟩

/-- C8 counterexample: a fetched snapshot of 1001 bytes whose fingerprint
differs from the stored one but whose length shrank below the stored 1002 bytes
IS promoted: `_performAudioFetch` resolves an `AcquisitionResult` (with
`isIncremental = false`) instead of yielding nothing. -/
theorem shrunk_buffer_still_promoted :
    (performAudioFetch (some storedB8) shrunkB8).2 =
      some { audioBuffer := shrunkB8, fullBuffer := shrunkB8, isIncremental := false } := by
  have hne : ¬ storedB8.fingerprint = calculateAudioFingerprint shrunkB8 := by
    intro h
    have hlen := congrArg List.length h
    simp only [storedB8, storedEntryFor, shrunkB8, calculateAudioFingerprint,
      List.length_replicate] at hlen
    exact absurd hlen (by norm_num)
  have hlen1 : ¬ shrunkB8.length ≤ 1000 := by
    simp only [shrunkB8, List.length_replicate]
    norm_num
  have hinc : (decide (storedB8.buffer.length < shrunkB8.length)) = false := by
    simp only [storedB8, storedEntryFor, shrunkB8, List.length_replicate]
    norm_num
  rw [performAudioFetch, if_neg hlen1]
  simp only [if_neg hne, hinc]

/-- C8 (amended): a fetched snapshot whose fingerprint differs from the stored
one is promoted to new content even when its byte length is smaller than the
stored buffer's: the new buffer replaces the stored entry and an
`AcquisitionResult` is returned, merely carrying `isIncremental = false`. -/
theorem shrinking_buffer_promoted
    (existingBuffer : StoredBuffer) (audioBuffer : Buffer)
    (hlen : 1000 < audioBuffer.length)
    (hne : existingBuffer.fingerprint ≠ calculateAudioFingerprint audioBuffer)
    (hsmall : audioBuffer.length ≤ existingBuffer.buffer.length) :
    performAudioFetch (some existingBuffer) audioBuffer =
      (some (storedEntryFor audioBuffer),
       some { audioBuffer := audioBuffer, fullBuffer := audioBuffer,
              isIncremental := false }) := by
  have hl : ¬ audioBuffer.length ≤ 1000 := not_le.mpr hlen
  have hdec : (decide (existingBuffer.buffer.length < audioBuffer.length)) = false :=
    decide_eq_false (not_lt.mpr hsmall)
  rw [performAudioFetch, if_neg hl]
  simp only [if_neg hne, hdec]

/-- Witness for `shrinking_buffer_promoted` at the concrete shrinking pair. -/
theorem shrinking_buffer_promoted_witness :
    (1000 < shrunkB8.length ∧
     storedB8.fingerprint ≠ calculateAudioFingerprint shrunkB8 ∧
     shrunkB8.length ≤ storedB8.buffer.length) ∧
    performAudioFetch (some storedB8) shrunkB8 =
      (some (storedEntryFor shrunkB8),
       some { audioBuffer := shrunkB8, fullBuffer := shrunkB8, isIncremental := false }) := by
  have h1 : 1000 < shrunkB8.length := by
    simp only [shrunkB8, List.length_replicate]
    norm_num
  have h2 : storedB8.fingerprint ≠ calculateAudioFingerprint shrunkB8 := by
    intro h
    have hlen := congrArg List.length h
    simp only [storedB8, storedEntryFor, shrunkB8, calculateAudioFingerprint,
      List.length_replicate] at hlen
    exact absurd hlen (by norm_num)
  have h3 : shrunkB8.length ≤ storedB8.buffer.length := by
    simp only [storedB8, storedEntryFor, shrunkB8, List.length_replicate]
    norm_num
  exact ⟨⟨h1, h2, h3⟩, shrinking_buffer_promoted storedB8 shrunkB8 h1 h2 h3⟩

/-- C9: the single-flight gate — a fetch requested for a bot while one is
already pending returns the very same pending promise, leaves the state
untouched, and issues no new `_performAudioFetch` request. -/
theorem single_flight_fetch (s : FetchState) (legacyBotId : String) (p : Nat)
    (h : s.fetchPromises.lookup legacyBotId = some p) :
    fetchAudioForBot s legacyBotId = (s, p) ∧
    (fetchAudioForBot s legacyBotId).1.requestsIssued = s.requestsIssued := by
  constructor <;> simp [fetchAudioForBot, h]

/-- Witness for `single_flight_fetch` on a state with a pending promise. -/
theorem single_flight_fetch_witness :
    fetchStateC9.fetchPromises.lookup "leg1" = some 7 ∧
    (fetchAudioForBot fetchStateC9 "leg1" = (fetchStateC9, 7) ∧
     (fetchAudioForBot fetchStateC9 "leg1").1.requestsIssued = fetchStateC9.requestsIssued) :=
  ⟨by decide, single_flight_fetch fetchStateC9 "leg1" 7 (by decide)⟩

/-- C10: a fetched response body of at most 1000 bytes is treated as having no
content — `_performAudioFetch` returns null and leaves the stored entry (buffer,
fingerprint, metadata) unchanged, whatever the bytes are. -/
theorem small_body_no_content (stored : Option StoredBuffer) (audioBuffer : Buffer)
    (h : audioBuffer.length ≤ 1000) :
    performAudioFetch stored audioBuffer = (stored, none) := by
  rw [performAudioFetch, if_pos h]

/-- Witness for `small_body_no_content`: a 3-byte body differing from the stored
content still returns null and leaves the stored entry unchanged. -/
theorem small_body_no_content_witness :
    (([9, 9, 9] : Buffer).length ≤ 1000) ∧
    performAudioFetch (some (storedEntryFor [1, 2, 3])) [9, 9, 9] =
      (some (storedEntryFor [1, 2, 3]), none) :=
  ⟨by decide, small_body_no_content (some (storedEntryFor [1, 2, 3])) [9, 9, 9] (by decide)⟩

/-- Helper: replacing the value at a present key makes lookup return the new value. -/
theorem lookup_mapReplace {α : Type} (k : String) (v : α) :
    ∀ m : List (String × α), (m.lookup k).isSome →
      (m.map (fun p => if p.1 = k then (k, v) else p)).lookup k = some v := by
  intro m
  induction m with
  | nil => intro h; simp at h
  | cons hd tl ih =>
    intro h
    rcases hd with ⟨a, b⟩
    by_cases hk : a = k
    · subst hk
      rw [List.map_cons, if_pos (show (a, b).1 = a from rfl)]
      simp [List.lookup]
    · have hbeq : (k == a) = false := by
        simp only [beq_eq_false_iff_ne, ne_eq]
        exact fun heq => hk heq.symm
      rw [List.map_cons, if_neg hk]
      simp only [List.lookup, hbeq]
      apply ih
      simpa [List.lookup, hbeq] using h

/-- Helper: appending a fresh binding for an absent key makes lookup return it. -/
theorem lookup_appendNew {α : Type} (k : String) (v : α) :
    ∀ m : List (String × α), m.lookup k = none →
      (m ++ [(k, v)]).lookup k = some v := by
  intro m
  induction m with
  | nil => intro _; simp [List.lookup]
  | cons hd tl ih =>
    intro h
    rcases hd with ⟨a, b⟩
    have hbeq : (k == a) = false := by
      cases hbe : k == a
      · rfl
      · exfalso
        simp only [List.lookup, hbe] at h
        exact Option.noConfusion h
    rw [List.cons_append]
    simp only [List.lookup, hbeq]
    apply ih
    simpa only [List.lookup, hbeq] using h

/-- Helper: looking up the key just written by `setEntry` yields the new value. -/
theorem lookup_setEntry {α : Type} (m : List (String × α)) (k : String) (v : α) :
    (setEntry m k v).lookup k = some v := by
  by_cases hs : (m.lookup k).isSome
  · rw [setEntry, if_pos hs]
    exact lookup_mapReplace k v m hs
  · rw [setEntry, if_neg hs]
    exact lookup_appendNew k v m (Option.not_isSome_iff_eq_none.mp hs)

/-- Helper: after `removeEntry`, the removed key no longer resolves. -/
theorem lookup_removeEntry {α : Type} (k : String) :
    ∀ m : List (String × α), (removeEntry m k).lookup k = none := by
  intro m
  induction m with
  | nil => simp [removeEntry]
  | cons hd tl ih =>
    rcases hd with ⟨a, b⟩
    by_cases hk : a = k
    · have hcond : ((a, b).1 != k) = false := by simp [hk]
      simpa only [removeEntry, List.filter_cons, hcond, Bool.false_eq_true, if_false]
        using ih
    · have hcond : ((a, b).1 != k) = true := by simp [hk]
      have hbeq : (k == a) = false := by
        simp only [beq_eq_false_iff_ne, ne_eq]
        exact fun heq => hk heq.symm
      simp only [removeEntry, List.filter_cons, hcond, if_true, List.lookup, hbeq]
      simpa only [removeEntry] using ih

/-- Helper: `appendNumbered` appends exactly the incoming segments. -/
theorem appendNumbered_length (incoming : List Segment) :
    ∀ existing : List (Nat × Segment),
      (appendNumbered existing incoming).length = existing.length + incoming.length := by
  induction incoming with
  | nil => intro ex; simp [appendNumbered]
  | cons s rest ih =>
    intro ex
    have h := ih (ex ++ [(ex.length + 1, s)])
    simp only [appendNumbered, List.foldl_cons] at h ⊢
    rw [h]
    simp
    omega

/-- C3 counterexample: applying a one-segment transcription to a `stopped`
session via `updateSession` is NOT a no-op — the stopped session's segment list
grows from 0 to 1 segments, so the claimed invariant fails on the code. -/
theorem stopped_session_still_mutated :
    updateSession stoppedState3 "b1_transcript" oneSegTranscription ≠ stoppedState3 ∧
    ((updateSession stoppedState3 "b1_transcript" oneSegTranscription).transcriptSessions.lookup
        "b1_transcript").map (fun s => s.segments.length) = some 1 := by
  constructor
  · decide
  · decide

/-- C3 (amended): `updateSession` does not check session status, so appending a
nonempty transcription to a `stopped` session still appends all its segments
(the session stays `stopped`); what does hold is that a stopped session is never
listed by `getActiveSessions`, and `stopSession` removes the bot-to-session
mapping so later acquisition results no longer resolve to the stopped session. -/
theorem stopped_session_behavior
    (state : ServiceState) (sid : String) (session : Session) (tr : Transcription)
    (hsess : state.transcriptSessions.lookup sid = some session)
    (hstopped : session.status = "stopped")
    (hseg : ¬ tr.segments.isEmpty) :
    (∃ updated : Session,
       (updateSession state sid tr).transcriptSessions.lookup sid = some updated ∧
       updated.segments.length = session.segments.length + tr.segments.length ∧
       updated.status = "stopped") ∧
    session ∉ getActiveSessions state ∧
    (stopSession state sid).botToSessionMap.lookup session.legacyBotId = none := by
  refine ⟨?_, ?_, ?_⟩
  · have hseg2 : tr.segments.isEmpty = false := by
      cases hie : tr.segments.isEmpty
      · rfl
      · exact absurd hie hseg
    simp only [updateSession, hsess, hseg2, Bool.false_eq_true, if_false]
    exact ⟨_, lookup_setEntry _ _ _,
      appendNumbered_length tr.segments session.segments, hstopped⟩
  · intro hmem
    have hp := List.of_mem_filter hmem
    rw [hstopped] at hp
    simp at hp
  · simp only [stopSession, hsess]
    exact lookup_removeEntry _ _

/-- Witness for `stopped_session_behavior` on the concrete stopped session. -/
theorem stopped_session_behavior_witness :
    (stoppedState3.transcriptSessions.lookup "b1_transcript" = some stoppedSession3 ∧
     stoppedSession3.status = "stopped" ∧
     ¬ oneSegTranscription.segments.isEmpty) ∧
    ((∃ updated : Session,
        (updateSession stoppedState3 "b1_transcript"
            oneSegTranscription).transcriptSessions.lookup "b1_transcript" = some updated ∧
        updated.segments.length =
          stoppedSession3.segments.length + oneSegTranscription.segments.length ∧
        updated.status = "stopped") ∧
     stoppedSession3 ∉ getActiveSessions stoppedState3 ∧
     (stopSession stoppedState3 "b1_transcript").botToSessionMap.lookup
        stoppedSession3.legacyBotId = none) :=
  ⟨⟨by decide, rfl, by decide⟩,
   stopped_session_behavior stoppedState3 "b1_transcript" stoppedSession3 oneSegTranscription
     (by decide) rfl (by decide)⟩

/-- C4 counterexample: after a single poll failure with one active bot, the
monitor does NOT preserve the last successful poll's handles: it clears the
active set, notifies listeners that the bot was removed, and schedules the retry
at the fixed delay `min(2 * 5000, 30000) = 10000` ms. -/
theorem poll_failure_clears_now :
    (pollStep monitorC4 PollOutcome.failure).1.activeBots = [] ∧
    (pollStep monitorC4 PollOutcome.failure).2.2 =
      some { newBots := [], removedBots := ["leg1"], activeBots := [], botsWithNewAudio := [] } ∧
    (pollStep monitorC4 PollOutcome.failure).2.1 = 10000 := by
  refine ⟨by decide, by decide, by decide⟩

/-- C4 (amended): on every poll failure with a nonempty active set, the monitor
immediately clears all active bots and notifies listeners that every previously
observed bot was removed; the retry is scheduled after the fixed, capped delay
`min(2 * pollInterval, 30000)` — there is no grace period and no per-failure
increasing backoff. -/
theorem poll_failure_behavior (s : MonitorState) (h : s.activeBots ≠ []) :
    pollStep s PollOutcome.failure =
      ({ activeBots := [], pollInterval := s.pollInterval },
       min (s.pollInterval * 2) 30000,
       some { newBots := [], removedBots := s.activeBots.map Prod.fst,
              activeBots := [], botsWithNewAudio := [] }) := by
  have hlen : 0 < s.activeBots.length := List.length_pos.mpr h
  have hmapne : s.activeBots.map Prod.fst ≠ [] := by
    simpa using h
  rw [pollStep, if_pos hlen]
  simp only [processBotUpdates, List.map_nil, List.filter_nil]
  have hfilter :
      (s.activeBots.map Prod.fst).filter (fun id => !(([] : List String).contains id)) =
        s.activeBots.map Prod.fst := by
    simp
  rw [hfilter]
  simp [hmapne]

/-- Witness for `poll_failure_behavior` on the one-bot monitor state. -/
theorem poll_failure_behavior_witness :
    monitorC4.activeBots ≠ [] ∧
    pollStep monitorC4 PollOutcome.failure =
      ({ activeBots := [], pollInterval := monitorC4.pollInterval },
       min (monitorC4.pollInterval * 2) 30000,
       some { newBots := [], removedBots := monitorC4.activeBots.map Prod.fst,
              activeBots := [], botsWithNewAudio := [] }) :=
  ⟨by decide, poll_failure_behavior monitorC4 (by decide)⟩

/-- Helper: in `normalizeSegment`, a generic label goes straight to the
least-used-name heuristic, which is computed from the original segment list and
is therefore the same name for every generic label of the batch. -/
theorem normalizeSegment_generic (names : List String) (segs : List Segment) (seg : Segment)
    (hgen : isGenericLabel (if seg.speaker = "" then "Unknown" else seg.speaker) = true) :
    (normalizeSegment names segs seg).speaker = leastUsedName names segs := by
  simp [normalizeSegment, hgen]

/-- C5 counterexample: with the two-name roster `[Ada, Bob]` and two utterances
labeled `Speaker 1` and `Speaker 2`, BOTH are remapped to `Ada` — the generic
labels are collapsed onto a single roster name, and neither exact nor substring
matching is attempted for them. -/
theorem generic_labels_collapse :
    (normalizeSpeakerNames genericSegsC5 rosterC5).map Segment.speaker = ["Ada", "Ada"] := by
  decide

/-- C5 (amended): with exactly one roster name every utterance's speaker is
forced to that name.  With multiple roster names, each segment is normalized
independently by `normalizeSegment` over the original list: a generic
(empty/unknown/`Speaker N`) label is remapped directly — without exact or
substring matching — to the roster name least used among the original segment
labels, which is the same name for every generic label (so generic labels ARE
collapsed onto one name); a non-generic label is kept when it matches the roster
exactly. -/
theorem speaker_normalization_behavior :
    (∀ (segs : List Segment) (p : Participant),
       (normalizeSpeakerNames segs [p]).map Segment.speaker =
         segs.map (fun _ => participantDisplayName p)) ∧
    (∀ (parts : List Participant) (segs : List Segment),
       2 ≤ parts.length → segs ≠ [] →
       normalizeSpeakerNames segs parts =
         segs.map (normalizeSegment (parts.map participantDisplayName) segs)) ∧
    (∀ (names : List String) (segs : List Segment) (seg : Segment),
       isGenericLabel (if seg.speaker = "" then "Unknown" else seg.speaker) = true →
       (normalizeSegment names segs seg).speaker = leastUsedName names segs) ∧
    (∀ (names : List String) (segs : List Segment) (seg1 seg2 : Segment),
       isGenericLabel (if seg1.speaker = "" then "Unknown" else seg1.speaker) = true →
       isGenericLabel (if seg2.speaker = "" then "Unknown" else seg2.speaker) = true →
       (normalizeSegment names segs seg1).speaker = (normalizeSegment names segs seg2).speaker) ∧
    (∀ (names : List String) (segs : List Segment) (seg : Segment),
       seg.speaker ≠ "" → isGenericLabel seg.speaker = false →
       names.contains seg.speaker = true →
       normalizeSegment names segs seg = seg) := by
  refine ⟨?_, ?_, ?_, ?_, ?_⟩
  · intro segs p
    by_cases hs : segs = []
    · subst hs
      simp [normalizeSpeakerNames]
    · have hform : normalizeSpeakerNames segs [p] =
          segs.map (fun segment =>
            { segment with speaker := ([p].map participantDisplayName).headD "Unknown" }) := by
        simp [normalizeSpeakerNames, hs]
      rw [hform, List.map_map]
      exact List.map_congr_left (fun seg _ => rfl)
  · intro parts segs h2 hne
    have hp0 : parts ≠ [] := by
      intro hp
      subst hp
      simp at h2
    have hp1 : parts.length ≠ 1 := by omega
    simp [normalizeSpeakerNames, hne, hp0, hp1]
  · exact normalizeSegment_generic
  · intro names segs seg1 seg2 h1 h2
    rw [normalizeSegment_generic names segs seg1 h1, normalizeSegment_generic names segs seg2 h2]
  · intro names segs seg hne hgen hcont
    have hmem : seg.speaker ∈ names := by simpa using hcont
    simp [normalizeSegment, hne, hgen, hcont, hmem]

/-- Witness for `speaker_normalization_behavior`: the multi-roster branch and the
generic-label remap applied at the concrete roster and segments of the
counterexample. -/
theorem speaker_normalization_behavior_witness :
    (2 ≤ rosterC5.length ∧ genericSegsC5 ≠ []) ∧
    normalizeSpeakerNames genericSegsC5 rosterC5 =
      genericSegsC5.map
        (normalizeSegment (rosterC5.map participantDisplayName) genericSegsC5) :=
  ⟨⟨by decide, by decide⟩,
   speaker_normalization_behavior.2.1 rosterC5 genericSegsC5 (by decide) (by decide)⟩

/-- C6 counterexample: the JSON response with a present but EMPTY `segments`
array passes the source's shape validation and is returned with an empty
utterance list, instead of being replaced by the claimed single best-effort
fallback utterance. -/
theorem empty_segments_not_replaced :
    (parseTranscriptionResponse (some emptySegsResponse) "Transcription failed").segments = [] := by
  decide

/-- C6 (amended): the response is validated only for the presence of a
`segments` array — emptiness is not checked, so an empty array yields an empty
result.  When `JSON.parse` fails or `segments` is missing/not an array, a single
fallback utterance containing the scraped text is returned, with start and end
offsets both `0` (not spanning the slice); a valid `segments` array is trusted
as-is, one output utterance per input element. -/
theorem parse_response_behavior :
    (∀ fallbackText : String,
       parseTranscriptionResponse none fallbackText = fallbackTranscription fallbackText ∧
       (fallbackTranscription fallbackText).segments =
         [{ speaker := "Unknown", text := fallbackText,
            startTime := 0, endTime := 0, confidence := 0 }]) ∧
    (∀ (parsed : ParsedJson) (fallbackText : String),
       parsed.segments = none →
       parseTranscriptionResponse (some parsed) fallbackText = fallbackTranscription fallbackText) ∧
    (∀ (parsed : ParsedJson) (segs : List RawSegment) (fallbackText : String),
       parsed.segments = some segs →
       (parseTranscriptionResponse (some parsed) fallbackText).segments.length = segs.length) := by
  refine ⟨?_, ?_, ?_⟩
  · intro fallbackText
    exact ⟨rfl, rfl⟩
  · intro parsed fallbackText h
    simp [parseTranscriptionResponse, h]
  · intro parsed segs fallbackText h
    simp [parseTranscriptionResponse, h]

/-- Witness for `parse_response_behavior` at concrete responses: the
missing-array case falls back, the one-segment case is kept as one utterance. -/
theorem parse_response_behavior_witness :
    (noSegsResponse.segments = none ∧ oneSegResponse.segments = some
      [{ speaker := some "Ada", text := some "hi",
         startTime := some 2, endTime := some 3, confidence := some 1 }]) ∧
    parseTranscriptionResponse (some noSegsResponse) "oops" = fallbackTranscription "oops" ∧
    (parseTranscriptionResponse (some oneSegResponse) "oops").segments.length = 1 :=
  ⟨⟨rfl, rfl⟩,
   parse_response_behavior.2.1 noSegsResponse "oops" rfl,
   parse_response_behavior.2.2 oneSegResponse
     [{ speaker := some "Ada", text := some "hi",
        startTime := some 2, endTime := some 3, confidence := some 1 }] "oops" rfl⟩

/-- Helper: `combineTranscriptions` on a nonempty list succeeds and its segment
list is the in-order concatenation of the inputs' segment lists. -/
theorem combineTranscriptions_segments (t0 : Transcription) (rest : List Transcription) :
    ∃ combined, combineTranscriptions (t0 :: rest) = some combined ∧
      combined.segments = ((t0 :: rest).map Transcription.segments).flatten :=
  ⟨_, rfl, rfl⟩

/-- C7: a window whose provider call fails (non-rate-limit) after its retries is
simply skipped — the loop over the remaining windows proceeds with the very same
rolling context (the failed window's context updates are not applied) — and any
nonempty set of successful windows still merges into a combined result carrying
exactly the successful windows' utterances. -/
theorem failed_window_skipped
    (provider : ChunkSpec → Option PreviousContext → Except ChunkError Transcription)
    (chunk : ChunkSpec) (rest : List ChunkSpec) (ctx : Option PreviousContext)
    (hfail : provider chunk ctx = Except.error ChunkError.failed) :
    runChunks provider (chunk :: rest) ctx = runChunks provider rest ctx ∧
    (∀ (t0 : Transcription) (ts : List Transcription),
       runChunks provider rest ctx = Except.ok (t0 :: ts) →
       ∃ combined, combineTranscriptions (t0 :: ts) = some combined ∧
         combined.segments = ((t0 :: ts).map Transcription.segments).flatten) := by
  constructor
  · simp [runChunks, hfail]
  · intro t0 ts _
    exact combineTranscriptions_segments t0 ts

/-- Witness for `failed_window_skipped`: a provider failing exactly on window 0
of the two windows `(0,300)` and `(300,600)`. -/
theorem failed_window_skipped_witness :
    providerC7 { startTime := 0, endTime := 300, index := 0 } none =
      Except.error ChunkError.failed ∧
    (runChunks providerC7
        [{ startTime := 0, endTime := 300, index := 0 },
         { startTime := 300, endTime := 600, index := 1 }] none =
      runChunks providerC7 [{ startTime := 300, endTime := 600, index := 1 }] none ∧
     (∀ (t0 : Transcription) (ts : List Transcription),
        runChunks providerC7 [{ startTime := 300, endTime := 600, index := 1 }] none =
          Except.ok (t0 :: ts) →
        ∃ combined, combineTranscriptions (t0 :: ts) = some combined ∧
          combined.segments = ((t0 :: ts).map Transcription.segments).flatten)) :=
  ⟨rfl, failed_window_skipped providerC7
    { startTime := 0, endTime := 300, index := 0 }
    [{ startTime := 300, endTime := 600, index := 1 }] none rfl⟩

/-- Helper: start offsets of shifted segments are the original start offsets
shifted. -/
theorem map_startTime_shift (offset : Rat) (segs : List Segment) :
    (segs.map (shiftSegment offset)).map Segment.startTime =
      (segs.map Segment.startTime).map (fun x => x + offset) := by
  induction segs with
  | nil => rfl
  | cons a l ih => simp [shiftSegment, ih]

/-- Helper: shifting preserves a non-decreasing chain of offsets. -/
theorem chain_shift (offset : Rat) (l : List Rat)
    (h : List.Chain' (fun a b => a ≤ b) l) :
    List.Chain' (fun a b => a ≤ b) (l.map (fun x => x + offset)) := by
  rw [List.chain'_map]
  exact h.imp (fun a b hab => add_le_add_right hab offset)

/-- C2: for audio of probed duration 620 s at a 300 s window size, the splitter
produces exactly the 3 windows (0,300), (300,600), (600,620) (last truncated);
and for any provider whose per-window outputs are locally well-formed
(non-decreasing start offsets within the window length), the merged result of
`transcribeLongAudio` has monotonically non-decreasing start offsets, and a
window-3 utterance at local offset 10 s appears in the merged result at global
offset 610 s. -/
theorem chunked_620_windows
    (provider : ChunkSpec → Option PreviousContext → Except ChunkError Transcription)
    (hok : ∀ chunk ctx, chunk ∈ splitAudioIntoChunks 620 300 →
       ∃ t, provider chunk ctx = Except.ok t)
    (hloc : ∀ chunk ctx t, chunk ∈ splitAudioIntoChunks 620 300 →
       provider chunk ctx = Except.ok t → localOk chunk t)
    (h10 : ∀ ctx t, provider { startTime := 600, endTime := 620, index := 2 } ctx = Except.ok t →
       ∃ seg ∈ t.segments, seg.startTime = 10) :
    splitAudioIntoChunks 620 300 =
      [{ startTime := 0, endTime := 300, index := 0 },
       { startTime := 300, endTime := 600, index := 1 },
       { startTime := 600, endTime := 620, index := 2 }] ∧
    ∃ result, transcribeLongAudio provider 620 300 = Except.ok result ∧
      List.Chain' (fun a b => a ≤ b) (result.segments.map Segment.startTime) ∧
      ∃ seg ∈ result.segments, seg.startTime = 610 := by
  have hm0 : ({ startTime := 0, endTime := 300, index := 0 } : ChunkSpec) ∈
      splitAudioIntoChunks 620 300 := by rw [splitChunks620]; simp
  have hm1 : ({ startTime := 300, endTime := 600, index := 1 } : ChunkSpec) ∈
      splitAudioIntoChunks 620 300 := by rw [splitChunks620]; simp
  have hm2 : ({ startTime := 600, endTime := 620, index := 2 } : ChunkSpec) ∈
      splitAudioIntoChunks 620 300 := by rw [splitChunks620]; simp
  obtain ⟨t0, h0⟩ := hok { startTime := 0, endTime := 300, index := 0 } none hm0
  obtain ⟨t1, h1⟩ := hok { startTime := 300, endTime := 600, index := 1 }
    (some (nextContext { startTime := 0, endTime := 300, index := 0 }
      (shiftTranscription 0 t0))) hm1
  obtain ⟨t2, h2⟩ := hok { startTime := 600, endTime := 620, index := 2 }
    (some (nextContext { startTime := 300, endTime := 600, index := 1 }
      (shiftTranscription 300 t1))) hm2
  have hrun : runChunks provider
      [{ startTime := 0, endTime := 300, index := 0 },
       { startTime := 300, endTime := 600, index := 1 },
       { startTime := 600, endTime := 620, index := 2 }] none =
      Except.ok [shiftTranscription 0 t0, shiftTranscription 300 t1,
                 shiftTranscription 600 t2] := by
    simp [runChunks, h0, h1, h2]
  obtain ⟨combined, hcomb, hsegs⟩ :=
    combineTranscriptions_segments (shiftTranscription 0 t0)
      [shiftTranscription 300 t1, shiftTranscription 600 t2]
  have htl : transcribeLongAudio provider 620 300 = Except.ok combined := by
    simp only [transcribeLongAudio, splitChunks620, hrun, hcomb]
  have hsegs2 : combined.segments =
      (shiftTranscription 0 t0).segments ++
        ((shiftTranscription 300 t1).segments ++ (shiftTranscription 600 t2).segments) := by
    rw [hsegs]; simp
  -- local well-formedness of each window's output
  have l0 := hloc { startTime := 0, endTime := 300, index := 0 } none t0 hm0 h0
  have l1 := hloc { startTime := 300, endTime := 600, index := 1 } _ t1 hm1 h1
  have l2 := hloc { startTime := 600, endTime := 620, index := 2 } _ t2 hm2 h2
  -- per-window chains of shifted offsets
  have c0 : List.Chain' (fun a b => a ≤ b)
      ((shiftTranscription 0 t0).segments.map Segment.startTime) := by
    rw [shiftTranscription, map_startTime_shift]
    exact chain_shift 0 _ l0.1
  have c1 : List.Chain' (fun a b => a ≤ b)
      ((shiftTranscription 300 t1).segments.map Segment.startTime) := by
    rw [shiftTranscription, map_startTime_shift]
    exact chain_shift 300 _ l1.1
  have c2 : List.Chain' (fun a b => a ≤ b)
      ((shiftTranscription 600 t2).segments.map Segment.startTime) := by
    rw [shiftTranscription, map_startTime_shift]
    exact chain_shift 600 _ l2.1
  -- per-window bounds on the shifted offsets
  have b0 : ∀ x ∈ (shiftTranscription 0 t0).segments.map Segment.startTime,
      0 ≤ x ∧ x ≤ 300 := by
    intro x hx
    rw [shiftTranscription, map_startTime_shift] at hx
    obtain ⟨y, hy, rfl⟩ := List.mem_map.mp hx
    obtain ⟨seg, hseg, rfl⟩ := List.mem_map.mp hy
    have := l0.2 seg hseg
    simp only at this
    constructor <;> linarith [this.1, this.2]
  have b1 : ∀ x ∈ (shiftTranscription 300 t1).segments.map Segment.startTime,
      300 ≤ x ∧ x ≤ 600 := by
    intro x hx
    rw [shiftTranscription, map_startTime_shift] at hx
    obtain ⟨y, hy, rfl⟩ := List.mem_map.mp hx
    obtain ⟨seg, hseg, rfl⟩ := List.mem_map.mp hy
    have := l1.2 seg hseg
    simp only at this
    constructor <;> linarith [this.1, this.2]
  have b2 : ∀ x ∈ (shiftTranscription 600 t2).segments.map Segment.startTime,
      600 ≤ x ∧ x ≤ 620 := by
    intro x hx
    rw [shiftTranscription, map_startTime_shift] at hx
    obtain ⟨y, hy, rfl⟩ := List.mem_map.mp hx
    obtain ⟨seg, hseg, rfl⟩ := List.mem_map.mp hy
    have := l2.2 seg hseg
    simp only at this
    constructor <;> linarith [this.1, this.2]
  refine ⟨splitChunks620, combined, htl, ?_, ?_⟩
  · rw [hsegs2, List.map_append, List.map_append, List.chain'_append]
    refine ⟨c0, ?_, ?_⟩
    · rw [List.chain'_append]
      refine ⟨c1, c2, ?_⟩
      intro x hx y hy
      have hxm := List.mem_of_mem_getLast? hx
      have hym := List.mem_of_mem_head? hy
      have := (b1 x hxm).2
      have := (b2 y hym).1
      linarith
    · intro x hx y hy
      have hxm := List.mem_of_mem_getLast? hx
      have hym := List.mem_of_mem_head? hy
      have hx3 := (b0 x hxm).2
      rcases List.mem_append.mp hym with hy1 | hy2
      · have := (b1 y hy1).1
        linarith
      · have := (b2 y hy2).1
        linarith
  · obtain ⟨seg, hsmem, hs10⟩ := h10 _ t2 h2
    refine ⟨shiftSegment 600 seg, ?_, ?_⟩
    · rw [hsegs2]
      refine List.mem_append.mpr (Or.inr (List.mem_append.mpr (Or.inr ?_)))
      exact List.mem_map_of_mem (shiftSegment 600) hsmem
    · rw [shiftSegment]
      simp [hs10]
      norm_num

/-- Witness for `chunked_620_windows` at the concrete provider `providerC2`
(every window transcribed as one utterance at local offset 10 s). -/
theorem chunked_620_windows_witness :
    ((∀ chunk ctx, chunk ∈ splitAudioIntoChunks 620 300 →
        ∃ t, providerC2 chunk ctx = Except.ok t) ∧
     (∀ chunk ctx t, chunk ∈ splitAudioIntoChunks 620 300 →
        providerC2 chunk ctx = Except.ok t → localOk chunk t) ∧
     (∀ ctx t, providerC2 { startTime := 600, endTime := 620, index := 2 } ctx = Except.ok t →
        ∃ seg ∈ t.segments, seg.startTime = 10)) ∧
    (splitAudioIntoChunks 620 300 =
      [{ startTime := 0, endTime := 300, index := 0 },
       { startTime := 300, endTime := 600, index := 1 },
       { startTime := 600, endTime := 620, index := 2 }] ∧
     ∃ result, transcribeLongAudio providerC2 620 300 = Except.ok result ∧
       List.Chain' (fun a b => a ≤ b) (result.segments.map Segment.startTime) ∧
       ∃ seg ∈ result.segments, seg.startTime = 610) := by
  have hok : ∀ chunk ctx, chunk ∈ splitAudioIntoChunks 620 300 →
      ∃ t, providerC2 chunk ctx = Except.ok t := by
    intro chunk ctx _
    exact ⟨_, rfl⟩
  have hloc : ∀ chunk ctx t, chunk ∈ splitAudioIntoChunks 620 300 →
      providerC2 chunk ctx = Except.ok t → localOk chunk t := by
    intro chunk ctx t hmem heq
    rw [splitChunks620] at hmem
    cases Except.ok.inj heq
    fin_cases hmem <;>
      exact ⟨by simp, by intro seg hseg; simp at hseg; subst hseg; norm_num⟩
  have h10 : ∀ ctx t,
      providerC2 { startTime := 600, endTime := 620, index := 2 } ctx = Except.ok t →
      ∃ seg ∈ t.segments, seg.startTime = 10 := by
    intro ctx t heq
    cases Except.ok.inj heq
    exact ⟨_, List.mem_singleton.mpr rfl, rfl⟩
  exact ⟨⟨hok, hloc, h10⟩, chunked_620_windows providerC2 hok hloc h10⟩
